import Mathlib

/-!
Shallow embedding of the AQI interpolation core (`script.js`):
great-circle distance, nearest-station selection, inverse-distance-weighted
AQI estimation with a heuristic confidence score, route resampling, and
route-level aggregation.

Modelling conventions:
* JavaScript numbers are modelled as exact rationals (`ℚ`).  The Haversine
  distance function `calculateDistance` is transcendental (sin/cos/atan2/sqrt),
  so the executable rational pipeline takes the distance function as an
  explicit parameter `calculateDistance : ℚ → ℚ → ℚ → ℚ → ℚ`.  Facts that the
  real Haversine function satisfies (non-negativity; the concrete value of
  `calculateDistance 0 0 0 0.027`) appear as hypotheses of the theorems, and an
  exact real-number translation of the source's Haversine formula
  (`calculateDistanceReal` below) is provided to justify them.
* A JavaScript value that may be `null`/`undefined`/`NaN` where a number is
  expected is modelled as an `Option ℚ` with `none` covering all non-numeric
  cases (there is no NaN in `ℚ`).
* `Math.pow(base, exp)` is modelled on integer exponents (`zpow`), which covers
  the only exponent the program uses (the IDW power, default 2) exactly.
* `Math.round x` is `round x` (both are `⌊x + 1/2⌋`).
* `Array.prototype.sort` with the comparator `(a, b) => a.distance - b.distance`
  is a stable ascending sort by distance (ECMAScript 2019 guarantees
  stability); it is modelled by `List.mergeSort`, which is stable.
* `ℚ` division is total (`x / 0 = 0`) where JavaScript produces `NaN` or a
  signed infinity.  The program reaches a zero divisor only in the confidence
  computation (`minStations = 0` selecting nothing, or `maxDistance = 0`
  keeping a distance-0 station), so that computation is additionally modelled
  over `JSNum`, an exact-rational JavaScript number domain with `NaN` and
  infinities (`calculateEstimatedAQIConfidenceJS`); the two models provably
  agree whenever `minStations ≥ 1` and `maxDistance ≠ 0`.
-/

/-- A sensor station record, as consumed by `findNearestStations`
(`{ id, location, coordinates: [lat, lon], value, ... }`).
`coordinates` is `none` when the field is missing/falsy; a present coordinate
array of any length is `some list` (the source checks `length !== 2`).
`value` is `none` when the measured value is `null`/`undefined`/`NaN`. -/
structure Station where
  id : ℕ
  location : String
  coordinates : Option (List ℚ)
  value : Option ℚ
deriving DecidableEq

/-- A station annotated with its distance to the query point: the object
`{ ...station, distance }` built inside `findNearestStations`. -/
structure StationWithDistance extends Station where
  distance : ℚ
deriving DecidableEq

/-- The per-station summary record produced by `calculateEstimatedAQI`
(`{ id, location, aqi, distance: Math.round(s.distance), coordinates }`). -/
structure StationSummary where
  id : ℕ
  location : String
  aqi : Option ℚ
  distance : ℤ
  coordinates : Option (List ℚ)
deriving DecidableEq

/-- The `stations` field of an estimation result.  The insufficient-stations
branch of `calculateEstimatedAQI` returns the raw annotated stations, the
success branch returns the per-station summaries. -/
inductive ResultStations where
  | raw : List StationWithDistance → ResultStations
  | summarized : List StationSummary → ResultStations
deriving DecidableEq

/-- The result object of `calculateEstimatedAQI`.  The insufficient-stations
branch carries an `error` message and no `targetLocation`; the success branch
carries a `targetLocation` and no `error`. -/
structure EstimationResult where
  estimatedAQI : Option ℚ
  confidence : ℚ
  stationsUsed : ℕ
  stations : ResultStations
  error : Option String := none
  targetLocation : Option (ℚ × ℚ) := none
deriving DecidableEq

/-- The per-point result of `calculateEstimatedAQIForRoute`:
`{ pointIndex, ...calculateEstimatedAQI(...) }`. -/
structure RoutePointResult extends EstimationResult where
  pointIndex : ℕ
deriving DecidableEq

/-- The result object of `calculateRouteAverageAQI`.  The zero-valid-points
branch sets `averageAQI`/`minAQI`/`maxAQI` to `null`, carries an `error`
message, and does not set `coverage` at all (modelled as `coverage = none`). -/
structure RouteAggregate where
  averageAQI : Option ℚ
  minAQI : Option ℚ
  maxAQI : Option ℚ
  validPoints : ℕ
  totalPoints : ℕ
  coverage : Option ℤ := none
  error : Option String := none
deriving DecidableEq

/-- The options object of `calculateEstimatedAQI`, with the source's default
values for missing fields. -/
structure EstimationOptions where
  power : ℤ := 2
  maxStations : ℕ := 3
  maxDistance : ℚ := 50000
  minStations : ℕ := 1
deriving DecidableEq

section Pipeline

/- `calculateDistance` (the Haversine great-circle distance, in meters) is
transcendental, so the rational pipeline abstracts over it; theorems assume of
it only facts the real Haversine function provably satisfies. -/
variable (calculateDistance : ℚ → ℚ → ℚ → ℚ → ℚ)

/-- The body of the `.map` callback in `findNearestStations`: `null` (here
`none`) for a missing/malformed coordinate pair or a station farther than
`maxDistance`, otherwise the station annotated with its distance. -/
def annotateStation (targetLat targetLon maxDistance : ℚ) (station : Station) :
    Option StationWithDistance :=
  match station.coordinates with
  | none => none
  | some coords =>
    if coords.length ≠ 2 then none
    else
      let stationLat := coords.getD 0 0
      let stationLon := coords.getD 1 0
      let distance := calculateDistance targetLat targetLon stationLat stationLon
      if maxDistance < distance then none
      else some { station with distance := distance }

/-- The sort comparator of `findNearestStations`
(`(a, b) => a.distance - b.distance`, i.e. ascending by distance). -/
def stationDistLe (a b : StationWithDistance) : Bool :=
  decide (a.distance ≤ b.distance)

/-- The annotated, filtered, still unsorted station list built inside
`findNearestStations`: map each station to its annotation, keep the non-null
results whose `value` is a number (`station !== null && station.value !== null
&& !isNaN(station.value)`), and strip the `Option` wrapper (in JavaScript the
filtered array simply contains no `null`s). -/
def survivingStations (targetLat targetLon maxDistance : ℚ)
    (stations : List Station) : List StationWithDistance :=
  (((stations.map
      (annotateStation calculateDistance targetLat targetLon maxDistance)).filter
    (fun o => o.any fun s => s.value.isSome))).reduceOption

/-- `findNearestStations(stations, targetLat, targetLon, maxStations,
maxDistance)`: annotate and filter the stations, stable-sort ascending by
distance, and truncate to the first `maxStations`.  The source defaults
(`maxStations = 3`, `maxDistance = 50000`) are supplied by callers here. -/
def findNearestStations (stations : List Station) (targetLat targetLon : ℚ)
    (maxStations : ℕ) (maxDistance : ℚ) :
    List StationWithDistance :=
  if stations.isEmpty then []
  else
    (((survivingStations calculateDistance targetLat targetLon maxDistance
        stations).mergeSort stationDistLe).take maxStations)

/-- The `forEach` accumulation loop of `calculateEstimatedAQI`: fold the
selected stations into `(weightedSum, weightSum)`, each station contributing
weight `1 / max(distance, 1)^power`.  Selection guarantees `value` is present;
`getD 0` only discharges the `Option`. -/
def idwSums (power : ℤ) (nearestStations : List StationWithDistance) : ℚ × ℚ :=
  nearestStations.foldl
    (fun acc station =>
      let adjustedDistance := max station.distance 1
      let weight := 1 / adjustedDistance ^ power
      (acc.1 + station.value.getD 0 * weight, acc.2 + weight))
    (0, 0)

/-- `calculateEstimatedAQI(targetLat, targetLon, stations, options)`.
Note: `ℚ` division is total (`x / 0 = 0`) where JavaScript yields `NaN`, so
this model's `confidence` is only faithful away from zero divisors; its
`NaN`-aware counterpart is `calculateEstimatedAQIConfidenceJS` below, and the
two provably agree whenever `minStations ≥ 1` and `maxDistance ≠ 0`. -/
def calculateEstimatedAQI (targetLat targetLon : ℚ) (stations : List Station)
    (options : EstimationOptions) : EstimationResult :=
  let nearestStations := findNearestStations calculateDistance stations
    targetLat targetLon options.maxStations options.maxDistance
  if nearestStations.length < options.minStations then
    { estimatedAQI := none
      confidence := 0
      stationsUsed := nearestStations.length
      stations := ResultStations.raw nearestStations
      error := some ("Insufficient stations found. Required: "
        ++ toString options.minStations ++ ", Found: "
        ++ toString nearestStations.length) }
  else
    let sums := idwSums options.power nearestStations
    let weightedSum := sums.1
    let weightSum := sums.2
    let estimatedAQI : Option ℚ :=
      if 0 < weightSum then some (weightedSum / weightSum) else none
    let avgDistance :=
      (nearestStations.foldl (fun sum s => sum + s.distance) 0)
        / (nearestStations.length : ℚ)
    let distanceScore := max 0 (1 - avgDistance / options.maxDistance)
    let stationCountScore :=
      min 1 ((nearestStations.length : ℚ) / (options.maxStations : ℚ))
    let confidence := (distanceScore * 0.6 + stationCountScore * 0.4) * 100
    { estimatedAQI := estimatedAQI.map fun e => ((round (e * 10) : ℤ) : ℚ) / 10
      confidence := ((round (confidence * 10) : ℤ) : ℚ) / 10
      stationsUsed := nearestStations.length
      stations := ResultStations.summarized (nearestStations.map fun s =>
        { id := s.id
          location := s.location
          aqi := s.value
          distance := round s.distance
          coordinates := s.coordinates })
      targetLocation := some (targetLat, targetLon) }

/-- `calculateEstimatedAQIForRoute(points, stations, options)`: estimate every
point independently, tagging each result with its index. -/
def calculateEstimatedAQIForRoute (points : List (ℚ × ℚ))
    (stations : List Station) (options : EstimationOptions) :
    List RoutePointResult :=
  if points.isEmpty then []
  else points.mapIdx fun index point =>
    { calculateEstimatedAQI calculateDistance point.1 point.2 stations options
        with pointIndex := index }

/-- `calculateRouteAverageAQI(points, stations, options)`.  `validAQIs` keeps
the non-null estimates (`aqi !== null && !isNaN(aqi)`; no `NaN` exists in the
rational model); when none remain the statistics are absent and no `coverage`
field is set. -/
def calculateRouteAverageAQI (points : List (ℚ × ℚ)) (stations : List Station)
    (options : EstimationOptions) : RouteAggregate :=
  let routeAQIs := calculateEstimatedAQIForRoute calculateDistance points
    stations options
  let validAQIs := (routeAQIs.map fun r => r.estimatedAQI).reduceOption
  match validAQIs with
  | [] =>
    { averageAQI := none
      minAQI := none
      maxAQI := none
      validPoints := 0
      totalPoints := points.length
      error := some "No valid AQI estimates found for route" }
  | a :: rest =>
    let averageAQI := (a :: rest).foldl (· + ·) 0 / ((a :: rest).length : ℚ)
    let minAQI := rest.foldl min a
    let maxAQI := rest.foldl max a
    { averageAQI := some (((round (averageAQI * 10) : ℤ) : ℚ) / 10)
      minAQI := some (((round (minAQI * 10) : ℤ) : ℚ) / 10)
      maxAQI := some (((round (maxAQI * 10) : ℤ) : ℚ) / 10)
      validPoints := (a :: rest).length
      totalPoints := points.length
      coverage := some (round (((a :: rest).length : ℚ)
        / (points.length : ℚ) * 100)) }

/-- The inner `while (accumulatedDistance >= intervalMeters)` loop of
`sampleRoutePoints`, returning the emitted sample points of the current
segment together with the final accumulator value.  The extra
`intervalMeters ≤ 0` escape only makes the function total: for
`intervalMeters ≤ 0 ≤ accumulatedDistance` the source loop would not
terminate, and every claim about the sampler assumes a positive interval. -/
def sampleLoop (intervalMeters : ℚ) (lastPoint currentPoint : ℚ × ℚ)
    (segmentDistance : ℚ) (accumulatedDistance : ℚ) :
    List (ℚ × ℚ) × ℚ :=
  if _h : accumulatedDistance < intervalMeters ∨ intervalMeters ≤ 0 then
    ([], accumulatedDistance)
  else
    let distanceToSample :=
      intervalMeters - (accumulatedDistance - segmentDistance)
    let fraction := distanceToSample / segmentDistance
    let lat := lastPoint.1 + (currentPoint.1 - lastPoint.1) * fraction
    let lon := lastPoint.2 + (currentPoint.2 - lastPoint.2) * fraction
    let rest := sampleLoop intervalMeters lastPoint currentPoint
      segmentDistance (accumulatedDistance - intervalMeters)
    ((lat, lon) :: rest.1, rest.2)
termination_by (Int.ceil (accumulatedDistance / intervalMeters)).toNat
decreasing_by
  push_neg at _h
  obtain ⟨h1, h2⟩ := _h
  have hne : intervalMeters ≠ 0 := ne_of_gt h2
  have key : (accumulatedDistance - intervalMeters) / intervalMeters
      = accumulatedDistance / intervalMeters - 1 := by
    field_simp
  rw [key, Int.ceil_sub_one]
  have hge : (1 : ℚ) ≤ accumulatedDistance / intervalMeters :=
    (one_le_div h2).mpr h1
  have hc : (1 : ℤ) ≤ ⌈accumulatedDistance / intervalMeters⌉ := by
    have := hge.trans (Int.le_ceil (accumulatedDistance / intervalMeters))
    exact_mod_cast this
  omega

/-- The outer `for` loop of `sampleRoutePoints`: walk the remaining vertices,
carrying the previous vertex and the accumulated distance, and concatenate the
sample points each segment emits. -/
def sampleSegments (intervalMeters : ℚ) :
    List (ℚ × ℚ) → ℚ × ℚ → ℚ → List (ℚ × ℚ)
  | [], _, _ => []
  | currentPoint :: rest, lastPoint, accumulated =>
    let segmentDistance := calculateDistance lastPoint.1 lastPoint.2
      currentPoint.1 currentPoint.2
    let stepped := sampleLoop intervalMeters lastPoint currentPoint
      segmentDistance (accumulated + segmentDistance)
    stepped.1
      ++ sampleSegments intervalMeters rest currentPoint stepped.2

/-- Instrumentation of `sampleSegments`: the accumulator value at the START of
each segment (before the segment's distance is added), in segment order.  Used
to state the division-safety invariant of the sampler. -/
def segmentEntryAccs (intervalMeters : ℚ) :
    List (ℚ × ℚ) → ℚ × ℚ → ℚ → List ℚ
  | [], _, _ => []
  | currentPoint :: rest, lastPoint, accumulated =>
    let segmentDistance := calculateDistance lastPoint.1 lastPoint.2
      currentPoint.1 currentPoint.2
    let stepped := sampleLoop intervalMeters lastPoint currentPoint
      segmentDistance (accumulated + segmentDistance)
    accumulated :: segmentEntryAccs intervalMeters rest currentPoint stepped.2

/-- `sampleRoutePoints(routeCoordinates, intervalMeters)`: fewer than two
vertices yield `[]`; otherwise emit the first vertex, the interior samples of
every segment, and finally the last vertex unless the last emitted point is
already equal to it.  The source default is `intervalMeters = 1000`. -/
def sampleRoutePoints (routeCoordinates : List (ℚ × ℚ))
    (intervalMeters : ℚ) : List (ℚ × ℚ) :=
  if routeCoordinates.length < 2 then []
  else
    match routeCoordinates with
    | [] => []
    | firstPoint :: rest =>
      let sampledPoints := (firstPoint.1, firstPoint.2) ::
        sampleSegments calculateDistance intervalMeters rest firstPoint 0
      let lastCoord := (firstPoint :: rest).getLastD (0, 0)
      if sampledPoints = []
          ∨ sampledPoints.getLastD (0, 0) ≠ lastCoord then
        sampledPoints ++ [lastCoord]
      else sampledPoints

end Pipeline

noncomputable section RealHaversine

/-- `Math.atan2(y, x)` over the reals: the argument of the complex number
`x + y * I`, which has exactly atan2's quadrant conventions and range
`(-pi, pi]`. -/
def atan2 (y x : ℝ) : ℝ := Complex.arg ⟨x, y⟩

/-- `toRadians(degrees)` of the source, over `ℝ`. -/
def toRadians (degrees : ℝ) : ℝ := degrees * (Real.pi / 180)

/-- `calculateDistance(lat1, lon1, lat2, lon2)` of the source (the Haversine
formula with Earth radius 6371000 m), translated exactly over `ℝ`; the
JavaScript double computation approximates these real values.  The rational
pipeline above abstracts this function as a parameter; the theorems below
establish the facts assumed of it. -/
def calculateDistanceReal (lat1 lon1 lat2 lon2 : ℝ) : ℝ :=
  let R : ℝ := 6371000
  let dLat := toRadians (lat2 - lat1)
  let dLon := toRadians (lon2 - lon1)
  let a := Real.sin (dLat / 2) * Real.sin (dLat / 2)
    + Real.cos (toRadians lat1) * Real.cos (toRadians lat2)
      * Real.sin (dLon / 2) * Real.sin (dLon / 2)
  let c := 2 * atan2 (Real.sqrt a) (Real.sqrt (1 - a))
  R * c

end RealHaversine

/-- A degenerate distance function (everything at distance 0), used to
instantiate hypotheses of the universally quantified theorems at concrete
inputs. -/
def calculateDistanceZero : ℚ → ℚ → ℚ → ℚ → ℚ := fun _ _ _ _ => 0

/-- A rational stand-in for the Haversine distance on the route
`[(0,0), (0, 0.027)]`: the exact Haversine value
`calculateDistanceReal 0 0 0 0.027 = 6371000 * 0.027 * pi / 180` lies strictly
between 3002 and 3003 (see `calculateDistanceReal_0027_bounds`), and `3002.26`
matches it to two decimals.  The sampler's point count depends only on which
multiple-of-1000 bucket the segment length falls in, so any value in
`(3000, 4000)` is behaviourally faithful here. -/
def calculateDistanceC2 : ℚ → ℚ → ℚ → ℚ → ℚ := fun _ _ _ _ => 300226/100

/-- A concrete distance function realizing the distances of the C1 example:
station `[1, 1]` sits 1000 m and station `[3, 3]` sits 3000 m from the
target. -/
def calculateDistanceC1 : ℚ → ℚ → ℚ → ℚ → ℚ :=
  fun _ _ stationLat _ => stationLat * 1000

/-- A JavaScript number for the confidence computation: a finite value (an
exact `ℚ`, as in the rest of the model), `NaN`, or a signed infinity.  The
total `ℚ` division of the main model sets `x / 0 = 0`, but JavaScript yields
`NaN` for `0/0` and a signed infinity for `x/0` with `x ≠ 0`; this domain
keeps those outcomes distinct so the source's confidence formula can be
modelled exactly on its error path.  (`-0` is not distinguished from `0`;
the program produces no negative-zero divisor.) -/
inductive JSNum where
  | num : ℚ → JSNum
  | posInf : JSNum
  | negInf : JSNum
  | nan : JSNum
deriving DecidableEq

namespace JSNum

/-- JavaScript division (IEEE-754, without `-0`): `0/0` is `NaN`, `x/0` is a
signed infinity, finite divided by infinity is `0`, infinity by infinity is
`NaN`; `NaN` propagates. -/
def div : JSNum → JSNum → JSNum
  | nan, _ => nan
  | _, nan => nan
  | num a, num b =>
    if b = 0 then
      if a = 0 then nan else if 0 < a then posInf else negInf
    else num (a / b)
  | posInf, num b => if 0 ≤ b then posInf else negInf
  | negInf, num b => if 0 ≤ b then negInf else posInf
  | num _, posInf => num 0
  | num _, negInf => num 0
  | posInf, posInf => nan
  | posInf, negInf => nan
  | negInf, posInf => nan
  | negInf, negInf => nan

/-- JavaScript addition: `NaN` propagates, opposite infinities give `NaN`. -/
def add : JSNum → JSNum → JSNum
  | nan, _ => nan
  | _, nan => nan
  | num a, num b => num (a + b)
  | posInf, negInf => nan
  | negInf, posInf => nan
  | posInf, _ => posInf
  | _, posInf => posInf
  | negInf, _ => negInf
  | _, negInf => negInf

/-- JavaScript subtraction: `NaN` propagates, like-signed infinities give
`NaN`. -/
def sub : JSNum → JSNum → JSNum
  | nan, _ => nan
  | _, nan => nan
  | num a, num b => num (a - b)
  | posInf, posInf => nan
  | negInf, negInf => nan
  | posInf, _ => posInf
  | negInf, _ => negInf
  | _, posInf => negInf
  | _, negInf => posInf

/-- JavaScript multiplication: `NaN` propagates, `0` times an infinity is
`NaN`, otherwise infinities follow the sign rule. -/
def mul : JSNum → JSNum → JSNum
  | nan, _ => nan
  | _, nan => nan
  | num a, num b => num (a * b)
  | num a, posInf => if a = 0 then nan else if 0 < a then posInf else negInf
  | num a, negInf => if a = 0 then nan else if 0 < a then negInf else posInf
  | posInf, num b => if b = 0 then nan else if 0 < b then posInf else negInf
  | negInf, num b => if b = 0 then nan else if 0 < b then negInf else posInf
  | posInf, posInf => posInf
  | posInf, negInf => negInf
  | negInf, posInf => negInf
  | negInf, negInf => posInf

/-- `Math.max`: returns `NaN` if any argument is `NaN` (ECMA-262). -/
def maxJS : JSNum → JSNum → JSNum
  | nan, _ => nan
  | _, nan => nan
  | num a, num b => num (max a b)
  | posInf, _ => posInf
  | _, posInf => posInf
  | negInf, b => b
  | a, negInf => a

/-- `Math.min`: returns `NaN` if any argument is `NaN` (ECMA-262). -/
def minJS : JSNum → JSNum → JSNum
  | nan, _ => nan
  | _, nan => nan
  | num a, num b => num (min a b)
  | negInf, _ => negInf
  | _, negInf => negInf
  | posInf, b => b
  | a, posInf => a

/-- `Math.round`: the identity on infinities and `NaN`, `⌊x + 1/2⌋` on finite
values. -/
def roundJS : JSNum → JSNum
  | num a => num ((round a : ℤ) : ℚ)
  | posInf => posInf
  | negInf => negInf
  | nan => nan

/-- The JavaScript test `lo <= v && v <= hi`: every comparison with `NaN` is
false, and an infinity fails one of the two bounds, so only a finite value in
the interval passes. -/
def inClosedRange (v : JSNum) (lo hi : ℚ) : Bool :=
  match v with
  | num q => decide (lo ≤ q) && decide (q ≤ hi)
  | _ => false

end JSNum

/-- Lines 150–153 and 157 of the source under faithful JavaScript number
semantics: the confidence computation of `calculateEstimatedAQI`'s success
branch, including the one-decimal rounding.  All inputs are finite exact
rationals, so `NaN`/infinities arise only from the three divisions. -/
def jsConfidence (nearestStations : List StationWithDistance)
    (maxStations : ℕ) (maxDistance : ℚ) : JSNum :=
  let avgDistance := JSNum.div
    (JSNum.num (nearestStations.foldl (fun sum s => sum + s.distance) 0))
    (JSNum.num (nearestStations.length : ℚ))
  let distanceScore := JSNum.maxJS (JSNum.num 0)
    (JSNum.sub (JSNum.num 1) (JSNum.div avgDistance (JSNum.num maxDistance)))
  let stationCountScore := JSNum.minJS (JSNum.num 1)
    (JSNum.div (JSNum.num (nearestStations.length : ℚ))
      (JSNum.num (maxStations : ℚ)))
  let confidence := JSNum.mul
    (JSNum.add (JSNum.mul distanceScore (JSNum.num 0.6))
      (JSNum.mul stationCountScore (JSNum.num 0.4)))
    (JSNum.num 100)
  JSNum.div (JSNum.roundJS (JSNum.mul confidence (JSNum.num 10)))
    (JSNum.num 10)

/-- The `confidence` field of `calculateEstimatedAQI` under faithful
JavaScript number semantics: `0` on the insufficient-stations branch,
otherwise `jsConfidence` over the selected stations.  This refines the `ℚ`
model's `confidence`, whose total division (`x / 0 = 0`) collapses the `NaN`
outcomes the program reaches at `minStations = 0` with an empty selection,
or at `maxDistance = 0` with a station at distance 0. -/
def calculateEstimatedAQIConfidenceJS
    (calculateDistance : ℚ → ℚ → ℚ → ℚ → ℚ) (targetLat targetLon : ℚ)
    (stations : List Station) (options : EstimationOptions) : JSNum :=
  let nearestStations := findNearestStations calculateDistance stations
    targetLat targetLon options.maxStations options.maxDistance
  if nearestStations.length < options.minStations then JSNum.num 0
  else jsConfidence nearestStations options.maxStations options.maxDistance

section SelectionLemmas

variable {calculateDistance : ℚ → ℚ → ℚ → ℚ → ℚ}

/-- Unpacking a successful station annotation: the record is the input station
with a distance attached, the input's coordinate pair is present with exactly
two entries, and the attached distance is a `calculateDistance` value not
exceeding `maxDistance`. -/
lemma annotateStation_eq_some {targetLat targetLon maxDistance : ℚ}
    {st : Station} {s : StationWithDistance}
    (h : annotateStation calculateDistance targetLat targetLon maxDistance st
      = some s) :
    s.toStation = st
      ∧ (∃ c, st.coordinates = some c ∧ c.length = 2)
      ∧ (∃ x y, s.distance = calculateDistance targetLat targetLon x y)
      ∧ s.distance ≤ maxDistance := by
  simp only [annotateStation] at h
  split at h
  · exact absurd h (by simp)
  next coords heq =>
    split at h
    · exact absurd h (by simp)
    next hlen =>
      split at h
      · exact absurd h (by simp)
      next hdist =>
        push_neg at hlen hdist
        simp only [Option.some.injEq] at h
        subst h
        exact ⟨rfl, ⟨coords, heq, hlen⟩, ⟨_, _, rfl⟩, hdist⟩

/-- Membership in the filtered, annotated station list. -/
lemma mem_survivingStations {targetLat targetLon maxDistance : ℚ}
    {stations : List Station} {s : StationWithDistance}
    (h : s ∈ survivingStations calculateDistance targetLat targetLon
      maxDistance stations) :
    (∃ st ∈ stations,
        annotateStation calculateDistance targetLat targetLon maxDistance st
          = some s)
      ∧ s.value.isSome := by
  unfold survivingStations at h
  rw [List.reduceOption_mem_iff, List.mem_filter] at h
  obtain ⟨h1, h2⟩ := h
  rw [List.mem_map] at h1
  obtain ⟨st, hst, he⟩ := h1
  exact ⟨⟨st, hst, he⟩, by simpa using h2⟩

/-- Every selected station comes from the filtered, annotated list. -/
lemma mem_findNearestStations {stations : List Station}
    {targetLat targetLon : ℚ} {maxStations : ℕ} {maxDistance : ℚ}
    {s : StationWithDistance}
    (h : s ∈ findNearestStations calculateDistance stations targetLat
      targetLon maxStations maxDistance) :
    s ∈ survivingStations calculateDistance targetLat targetLon maxDistance
      stations := by
  unfold findNearestStations at h
  split at h
  · exact absurd h (by simp)
  · have hm := List.take_subset _ _ h
    rwa [List.mem_mergeSort] at hm

lemma stationDistLe_trans : ∀ a b c : StationWithDistance,
    stationDistLe a b → stationDistLe b c → stationDistLe a c := by
  intro a b c hab hbc
  simp only [stationDistLe, decide_eq_true_eq] at *
  exact le_trans hab hbc

lemma stationDistLe_total : ∀ a b : StationWithDistance,
    stationDistLe a b || stationDistLe b a := by
  intro a b
  simp only [stationDistLe, Bool.or_eq_true, decide_eq_true_eq]
  exact le_total _ _

end SelectionLemmas

/-- C5: for every input station list, `findNearestStations` returns only
records whose coordinate pair is present with exactly two entries and whose
measured value is numeric; a station record failing those checks is silently
dropped and never appears among the returned entries. -/
theorem findNearestStations_drops_malformed
    (calculateDistance : ℚ → ℚ → ℚ → ℚ → ℚ) (stations : List Station)
    (targetLat targetLon : ℚ) (maxStations : ℕ) (maxDistance : ℚ) :
    (∀ s ∈ findNearestStations calculateDistance stations targetLat targetLon
        maxStations maxDistance,
      (∃ c, s.coordinates = some c ∧ c.length = 2) ∧ s.value.isSome)
    ∧ ∀ st : Station,
        (st.coordinates = none
            ∨ (∀ c, st.coordinates = some c → c.length ≠ 2)
            ∨ st.value = none) →
        ∀ s ∈ findNearestStations calculateDistance stations targetLat
          targetLon maxStations maxDistance, s.toStation ≠ st := by
  have main : ∀ s ∈ findNearestStations calculateDistance stations targetLat
      targetLon maxStations maxDistance,
      (∃ c, s.coordinates = some c ∧ c.length = 2) ∧ s.value.isSome := by
    intro s hs
    obtain ⟨⟨st, _, he⟩, hval⟩ := mem_survivingStations
      (mem_findNearestStations hs)
    obtain ⟨hbase, ⟨c, hc, hlen⟩, -, -⟩ := annotateStation_eq_some he
    have hco : s.coordinates = st.coordinates := by rw [hbase]
    exact ⟨⟨c, by rw [hco, hc], hlen⟩, hval⟩
  refine ⟨main, ?_⟩
  intro st hbad s hs hcontr
  obtain ⟨⟨c, hc, hlen⟩, hval⟩ := main s hs
  rw [hcontr] at hc hval
  rcases hbad with hnone | hshape | hvnone
  · rw [hnone] at hc; exact Option.noConfusion hc
  · exact hshape c hc hlen
  · rw [hvnone] at hval; exact Bool.noConfusion hval

/-- C6: the output of `findNearestStations` has length at most `maxStations`,
every returned annotated distance is at most `maxDistance`, the output is
sorted ascending by distance, and entries of equal distance keep their
original relative order (the output restricted to any one distance value is a
sublist of the filtered input list, which is in input order). -/
theorem findNearestStations_sorted_bounded
    (calculateDistance : ℚ → ℚ → ℚ → ℚ → ℚ) (stations : List Station)
    (targetLat targetLon : ℚ) (maxStations : ℕ) (maxDistance : ℚ) :
    (findNearestStations calculateDistance stations targetLat targetLon
        maxStations maxDistance).length ≤ maxStations
    ∧ (∀ s ∈ findNearestStations calculateDistance stations targetLat
        targetLon maxStations maxDistance, s.distance ≤ maxDistance)
    ∧ (findNearestStations calculateDistance stations targetLat targetLon
        maxStations maxDistance).Pairwise
        (fun a b => a.distance ≤ b.distance)
    ∧ ∀ dq : ℚ,
        List.Sublist
          ((findNearestStations calculateDistance stations targetLat targetLon
            maxStations maxDistance).filter (fun s => s.distance = dq))
          ((survivingStations calculateDistance targetLat targetLon
              maxDistance stations).filter (fun s => s.distance = dq)) := by
  refine ⟨?_, ?_, ?_, ?_⟩
  · unfold findNearestStations
    split
    · simp
    · exact List.length_take_le _ _
  · intro s hs
    obtain ⟨⟨st, _, he⟩, -⟩ := mem_survivingStations
      (mem_findNearestStations hs)
    exact (annotateStation_eq_some he).2.2.2
  · unfold findNearestStations
    split
    · simp
    · have hsorted := List.sorted_mergeSort stationDistLe_trans
        stationDistLe_total
        (survivingStations calculateDistance targetLat targetLon maxDistance
          stations)
      have htake := hsorted.sublist (List.take_sublist maxStations _)
      exact htake.imp (by
        intro a b hab
        simpa [stationDistLe, decide_eq_true_eq] using hab)
  · intro dq
    set L := survivingStations calculateDistance targetLat targetLon
      maxDistance stations with hL
    set p : StationWithDistance → Bool := fun s => decide (s.distance = dq)
      with hp
    have hfix : (L.mergeSort stationDistLe).filter p = L.filter p := by
      have hpw : (L.filter p).Pairwise (fun a b => stationDistLe a b) := by
        apply List.pairwise_of_forall_mem_list
        intro a ha b hb
        have ha' := (List.mem_filter.mp ha).2
        have hb' := (List.mem_filter.mp hb).2
        simp only [hp, decide_eq_true_eq] at ha' hb'
        simp [stationDistLe, ha', hb']
      have hsub : List.Sublist (L.filter p) (L.mergeSort stationDistLe) :=
        List.sublist_mergeSort stationDistLe_trans stationDistLe_total hpw
          (List.filter_sublist L)
      have hsub2 : List.Sublist (L.filter p)
          ((L.mergeSort stationDistLe).filter p) := by
        have := hsub.filter p
        rwa [List.filter_filter, (by
          funext x
          cases hx : p x <;> simp [hx] : (fun x => p x && p x) = p)] at this
      have hlen : ((L.mergeSort stationDistLe).filter p).length
          = (L.filter p).length :=
        ((List.mergeSort_perm L stationDistLe).filter p).length_eq
      exact (hsub2.eq_of_length hlen.symm).symm
    unfold findNearestStations
    split
    · simp
    · have h1 : List.Sublist
          (((L.mergeSort stationDistLe).take maxStations).filter p)
          ((L.mergeSort stationDistLe).filter p) :=
        (List.take_sublist _ _).filter p
      rwa [hfix] at h1

/-- C7: when fewer stations than `options.minStations` are selected,
`calculateEstimatedAQI` returns (rather than throws) a result with absent
estimate, confidence 0, and the exact message
`Insufficient stations found. Required: {minStations}, Found: {count}`. -/
theorem calculateEstimatedAQI_insufficient
    (calculateDistance : ℚ → ℚ → ℚ → ℚ → ℚ) (targetLat targetLon : ℚ)
    (stations : List Station) (options : EstimationOptions)
    (h : (findNearestStations calculateDistance stations targetLat targetLon
        options.maxStations options.maxDistance).length < options.minStations) :
    (calculateEstimatedAQI calculateDistance targetLat targetLon stations
        options).estimatedAQI = none
    ∧ (calculateEstimatedAQI calculateDistance targetLat targetLon stations
        options).confidence = 0
    ∧ (calculateEstimatedAQI calculateDistance targetLat targetLon stations
        options).error
      = some ("Insufficient stations found. Required: "
          ++ toString options.minStations ++ ", Found: "
          ++ toString (findNearestStations calculateDistance stations
              targetLat targetLon options.maxStations
              options.maxDistance).length) := by
  unfold calculateEstimatedAQI
  rw [if_pos h]
  exact ⟨rfl, rfl, rfl⟩

section EstimatorLemmas

variable {calculateDistance : ℚ → ℚ → ℚ → ℚ → ℚ}

/-- The distance-summing `reduce` written as a list sum. -/
lemma foldl_add_distance (l : List StationWithDistance) (a : ℚ) :
    l.foldl (fun sum s => sum + s.distance) a
      = a + (l.map fun s => s.distance).sum := by
  induction l generalizing a with
  | nil => simp
  | cons x xs ih => simp [ih, add_assoc]

/-- The IDW `forEach` accumulation written as a pair of list sums. -/
lemma idwSums_eq (power : ℤ) (l : List StationWithDistance) :
    idwSums power l
      = ((l.map fun s =>
            s.value.getD 0 * (1 / (max s.distance 1) ^ power)).sum,
         (l.map fun s => 1 / (max s.distance 1) ^ power).sum) := by
  suffices h : ∀ a b : ℚ, l.foldl
      (fun acc station =>
        (acc.1 + station.value.getD 0
            * (1 / (max station.distance 1) ^ power),
         acc.2 + 1 / (max station.distance 1) ^ power)) (a, b)
      = (a + (l.map fun s =>
            s.value.getD 0 * (1 / (max s.distance 1) ^ power)).sum,
         b + (l.map fun s => 1 / (max s.distance 1) ^ power).sum) by
    simpa [idwSums] using h 0 0
  induction l with
  | nil => simp
  | cons x xs ih =>
    intro a b
    rw [List.foldl_cons]
    dsimp only
    rw [ih]
    simp [add_assoc]

/-- Every station selected by `findNearestStations` carries a non-negative
distance not exceeding `maxDistance`, provided the distance function is
non-negative (as the Haversine distance is). -/
lemma findNearestStations_distance_bounds
    (hdist : ∀ a b c d, 0 ≤ calculateDistance a b c d)
    {stations : List Station} {targetLat targetLon : ℚ} {maxStations : ℕ}
    {maxDistance : ℚ} {s : StationWithDistance}
    (hs : s ∈ findNearestStations calculateDistance stations targetLat
      targetLon maxStations maxDistance) :
    0 ≤ s.distance ∧ s.distance ≤ maxDistance := by
  obtain ⟨⟨st, _, he⟩, -⟩ := mem_survivingStations
    (mem_findNearestStations hs)
  obtain ⟨-, -, ⟨x, y, hxy⟩, hle⟩ := annotateStation_eq_some he
  exact ⟨hxy ▸ hdist _ _ _ _, hle⟩

/-- The confidence value after scaling and one-decimal rounding stays within
`[0, 100]` whenever the unrounded value does. -/
lemma roundDiv10_bounds {x : ℚ} (h0 : 0 ≤ x) (h100 : x ≤ 100) :
    0 ≤ ((round (x * 10) : ℤ) : ℚ) / 10
      ∧ ((round (x * 10) : ℤ) : ℚ) / 10 ≤ 100 := by
  have h1 : (0 : ℤ) ≤ round (x * 10) := by
    rw [round_eq]
    exact Int.le_floor.mpr (by push_cast; linarith)
  have h2 : round (x * 10) ≤ 1000 := by
    rw [round_eq]
    have hf : ((⌊x * 10 + 1 / 2⌋ : ℤ) : ℚ) ≤ x * 10 + 1 / 2 := Int.floor_le _
    have hlt : ((⌊x * 10 + 1 / 2⌋ : ℤ) : ℚ) < 1001 := by linarith
    have : (⌊x * 10 + 1 / 2⌋ : ℤ) < 1001 := by exact_mod_cast hlt
    omega
  constructor
  · have : (0 : ℚ) ≤ ((round (x * 10) : ℤ) : ℚ) := by exact_mod_cast h1
    linarith
  · have : ((round (x * 10) : ℤ) : ℚ) ≤ 1000 := by exact_mod_cast h2
    linarith

/-- Bounds for the raw confidence formula. -/
lemma confidence_formula_bounds {ds scs : ℚ} (h1 : 0 ≤ ds) (h2 : ds ≤ 1)
    (h3 : 0 ≤ scs) (h4 : scs ≤ 1) :
    0 ≤ ((round (((ds * 0.6 + scs * 0.4) * 100) * 10) : ℤ) : ℚ) / 10
      ∧ ((round (((ds * 0.6 + scs * 0.4) * 100) * 10) : ℤ) : ℚ) / 10 ≤ 100 :=
  roundDiv10_bounds (by nlinarith) (by nlinarith)

/-- The selection never returns more than `maxStations` records (`slice`). -/
lemma findNearestStations_length_le (stations : List Station)
    (targetLat targetLon : ℚ) (maxStations : ℕ) (maxDistance : ℚ) :
    (findNearestStations calculateDistance stations targetLat targetLon
      maxStations maxDistance).length ≤ maxStations := by
  unfold findNearestStations
  split
  · simp
  · exact List.length_take_le _ _

/-- JavaScript division agrees with `ℚ` division on finite values whenever
the divisor is non-zero. -/
lemma JSNum.div_num_num {a b : ℚ} (hb : b ≠ 0) :
    JSNum.div (JSNum.num a) (JSNum.num b) = JSNum.num (a / b) := by
  simp [JSNum.div, hb]

lemma JSNum.sub_num_num (a b : ℚ) :
    JSNum.sub (JSNum.num a) (JSNum.num b) = JSNum.num (a - b) := rfl

lemma JSNum.add_num_num (a b : ℚ) :
    JSNum.add (JSNum.num a) (JSNum.num b) = JSNum.num (a + b) := rfl

lemma JSNum.mul_num_num (a b : ℚ) :
    JSNum.mul (JSNum.num a) (JSNum.num b) = JSNum.num (a * b) := rfl

lemma JSNum.maxJS_num_num (a b : ℚ) :
    JSNum.maxJS (JSNum.num a) (JSNum.num b) = JSNum.num (max a b) := rfl

lemma JSNum.minJS_num_num (a b : ℚ) :
    JSNum.minJS (JSNum.num a) (JSNum.num b) = JSNum.num (min a b) := rfl

lemma JSNum.roundJS_num (a : ℚ) :
    JSNum.roundJS (JSNum.num a) = JSNum.num ((round a : ℤ) : ℚ) := rfl

end EstimatorLemmas

/-- C4 (amended): for every target point, station list, and options with
`minStations ≥ 1` and `maxDistanceMeters ≠ 0`, the confidence field of the
result of `calculateEstimatedAQI` lies within the closed interval `[0, 100]`;
moreover, under these hypotheses the confidence computed with faithful
JavaScript number semantics (`calculateEstimatedAQIConfidenceJS`) is exactly
that finite rational, so no `NaN` path is reached.  Without the two
hypotheses the program can return a `NaN` confidence, which lies in no
interval — see `confidence_nan_out_of_range`.  The distance function is
assumed non-negative, as the Haversine distance is
(`calculateDistanceReal_nonneg`). -/
theorem calculateEstimatedAQI_confidence_range
    (calculateDistance : ℚ → ℚ → ℚ → ℚ → ℚ)
    (hdist : ∀ a b c d, 0 ≤ calculateDistance a b c d)
    (targetLat targetLon : ℚ) (stations : List Station)
    (options : EstimationOptions) (hmin : 1 ≤ options.minStations)
    (hmd : options.maxDistance ≠ 0) :
    calculateEstimatedAQIConfidenceJS calculateDistance targetLat targetLon
        stations options
      = JSNum.num (calculateEstimatedAQI calculateDistance targetLat
          targetLon stations options).confidence
    ∧ 0 ≤ (calculateEstimatedAQI calculateDistance targetLat targetLon
        stations options).confidence
    ∧ (calculateEstimatedAQI calculateDistance targetLat targetLon stations
        options).confidence ≤ 100 := by
  have hb : ∀ s ∈ findNearestStations calculateDistance stations targetLat
      targetLon options.maxStations options.maxDistance,
      0 ≤ s.distance ∧ s.distance ≤ options.maxDistance :=
    fun _ hs => findNearestStations_distance_bounds hdist hs
  have hrange : 0 ≤ (calculateEstimatedAQI calculateDistance targetLat
      targetLon stations options).confidence
      ∧ (calculateEstimatedAQI calculateDistance targetLat targetLon stations
        options).confidence ≤ 100 := by
    simp only [calculateEstimatedAQI]
    split
    · exact ⟨le_refl 0, by norm_num⟩
    · dsimp only
      set ns := findNearestStations calculateDistance stations targetLat
        targetLon options.maxStations options.maxDistance with hns
      have hsum : 0 ≤ (ns.map fun s => s.distance).sum :=
        List.sum_nonneg (by
          intro x hx
          obtain ⟨s, hsmem, rfl⟩ := List.mem_map.mp hx
          exact (hb s hsmem).1)
      have havg : 0 ≤ ns.foldl (fun sum s => sum + s.distance) 0
          / (ns.length : ℚ) := by
        rw [foldl_add_distance]
        positivity
      have hquot : 0 ≤ (ns.foldl (fun sum s => sum + s.distance) 0
          / (ns.length : ℚ)) / options.maxDistance := by
        rcases List.eq_nil_or_concat ns with hnil | ⟨l, s, hcons⟩
        · simp [hnil]
        · have hmem : s ∈ ns := by rw [hcons]; simp
          have hmd0 : 0 ≤ options.maxDistance := ((hb s hmem).1).trans
            ((hb s hmem).2)
          rcases eq_or_lt_of_le hmd0 with heq | hlt
          · rw [← heq, div_zero]
          · exact div_nonneg havg (le_of_lt hlt)
      refine confidence_formula_bounds ?_ ?_ ?_ ?_
      · exact le_max_left 0 _
      · exact max_le (by norm_num) (by linarith)
      · exact le_min (by norm_num) (by positivity)
      · exact min_le_left 1 _
  refine ⟨?_, hrange.1, hrange.2⟩
  simp only [calculateEstimatedAQIConfidenceJS, calculateEstimatedAQI]
  rw [apply_ite EstimationResult.confidence]
  by_cases hbr : (findNearestStations calculateDistance stations targetLat
      targetLon options.maxStations options.maxDistance).length
      < options.minStations
  · rw [if_pos hbr, if_pos hbr]
  · rw [if_neg hbr, if_neg hbr]
    dsimp only
    have hlen1 : 1 ≤ (findNearestStations calculateDistance stations
        targetLat targetLon options.maxStations
        options.maxDistance).length :=
      le_trans hmin (not_lt.mp hbr)
    have hlenq : ((findNearestStations calculateDistance stations targetLat
        targetLon options.maxStations options.maxDistance).length : ℚ)
        ≠ 0 := by
      have : (findNearestStations calculateDistance stations targetLat
          targetLon options.maxStations options.maxDistance).length ≠ 0 := by
        omega
      exact_mod_cast this
    have htake : (findNearestStations calculateDistance stations targetLat
        targetLon options.maxStations options.maxDistance).length
        ≤ options.maxStations :=
      findNearestStations_length_le stations targetLat targetLon
        options.maxStations options.maxDistance
    have hmsq : ((options.maxStations : ℕ) : ℚ) ≠ 0 := by
      have : options.maxStations ≠ 0 := by omega
      exact_mod_cast this
    simp only [jsConfidence, JSNum.div_num_num hlenq,
      JSNum.div_num_num hmd, JSNum.div_num_num hmsq,
      JSNum.div_num_num (show (10 : ℚ) ≠ 0 by norm_num), JSNum.sub_num_num,
      JSNum.maxJS_num_num, JSNum.minJS_num_num, JSNum.mul_num_num,
      JSNum.add_num_num, JSNum.roundJS_num]

/-- C4 counterexample: the original claim fails without restrictions on the
options.  With `minStations = 0` and no stations, the branch guard `0 < 0` is
false and the program computes `avgDistance = 0/0 = NaN`, so the returned
confidence is `NaN`, which does not lie in `[0, 100]` (`0 <= NaN` is false in
JavaScript).  Likewise with the default `minStations = 1` but
`maxDistance = 0` and a station at distance 0 (kept, because `0 > 0` is
false): `distanceScore = Math.max(0, 1 - 0/0) = NaN`.  The total-division
`ℚ` model returns 60 and 73.3 at these inputs and cannot express the
failure; the JavaScript-semantics model does. -/
theorem confidence_nan_out_of_range :
    calculateEstimatedAQIConfidenceJS calculateDistanceZero 0 0 []
      { minStations := 0 } = JSNum.nan
    ∧ JSNum.inClosedRange (calculateEstimatedAQIConfidenceJS
        calculateDistanceZero 0 0 [] { minStations := 0 }) 0 100 = false
    ∧ calculateEstimatedAQIConfidenceJS calculateDistanceZero 0 0
        [⟨0, "A", some [1, 1], some 50⟩] { maxDistance := 0 } = JSNum.nan
    ∧ JSNum.inClosedRange (calculateEstimatedAQIConfidenceJS
        calculateDistanceZero 0 0 [⟨0, "A", some [1, 1], some 50⟩]
        { maxDistance := 0 }) 0 100 = false := by
  have h1 : calculateEstimatedAQIConfidenceJS calculateDistanceZero 0 0 []
      { minStations := 0 } = JSNum.nan := by decide
  have h2 : calculateEstimatedAQIConfidenceJS calculateDistanceZero 0 0
      [⟨0, "A", some [1, 1], some 50⟩] { maxDistance := 0 } = JSNum.nan := by
    have hnear : findNearestStations calculateDistanceZero
        [⟨0, "A", some [1, 1], some 50⟩] 0 0 3 0
        = [⟨⟨0, "A", some [1, 1], some 50⟩, 0⟩] := by
      norm_num [findNearestStations, survivingStations, annotateStation,
        calculateDistanceZero, List.reduceOption, List.filterMap_cons]
    rw [calculateEstimatedAQIConfidenceJS]
    dsimp only
    rw [hnear]
    norm_num [jsConfidence, JSNum.div, JSNum.sub, JSNum.add, JSNum.mul,
      JSNum.maxJS, JSNum.minJS, JSNum.roundJS]
  exact ⟨h1, by rw [h1]; rfl, h2, by rw [h2]; rfl⟩

/-- C10: with `minStations ≥ 1`, whenever `calculateEstimatedAQI` does not
take the insufficient-stations branch the accumulated weight sum is strictly
positive (each weight is `1 / max(distance, 1)^power > 0`), so the
null-estimate fallback is unreachable: the returned estimate is absent exactly
when fewer than `minStations` stations were selected. -/
theorem estimatedAQI_none_iff_insufficient
    (calculateDistance : ℚ → ℚ → ℚ → ℚ → ℚ) (targetLat targetLon : ℚ)
    (stations : List Station) (options : EstimationOptions)
    (hmin : 1 ≤ options.minStations) :
    (¬ (findNearestStations calculateDistance stations targetLat targetLon
          options.maxStations options.maxDistance).length
        < options.minStations →
      0 < (idwSums options.power (findNearestStations calculateDistance
          stations targetLat targetLon options.maxStations
          options.maxDistance)).2)
    ∧ ((calculateEstimatedAQI calculateDistance targetLat targetLon stations
          options).estimatedAQI = none
        ↔ (findNearestStations calculateDistance stations targetLat targetLon
            options.maxStations options.maxDistance).length
          < options.minStations) := by
  have hpos : ∀ ns : List StationWithDistance, ns ≠ [] →
      0 < (idwSums options.power ns).2 := by
    intro ns hne
    rw [idwSums_eq]
    apply List.sum_pos
    · intro w hw
      obtain ⟨s, -, rfl⟩ := List.mem_map.mp hw
      have hbase : 0 < max s.distance 1 :=
        lt_of_lt_of_le one_pos (le_max_right _ _)
      have := zpow_pos hbase options.power
      positivity
    · simpa using hne
  constructor
  · intro hno
    apply hpos
    intro hnil
    rw [hnil] at hno
    simp at hno
    omega
  · simp only [calculateEstimatedAQI]
    split
    next h => simpa using h
    next h =>
      dsimp only
      have hne : findNearestStations calculateDistance stations targetLat
          targetLon options.maxStations options.maxDistance ≠ [] := by
        intro hnil
        rw [hnil] at h
        simp at h
        omega
      rw [if_pos (hpos _ hne)]
      simpa using h

section SamplerLemmas

variable {calculateDistance : ℚ → ℚ → ℚ → ℚ → ℚ}

/-- When the accumulated distance is below the interval the sampling loop
emits nothing and leaves the accumulator unchanged: the loop body (the only
place that divides by the segment distance) is not executed. -/
lemma sampleLoop_of_lt {intervalMeters acc : ℚ} (h : acc < intervalMeters)
    (lastPoint currentPoint : ℚ × ℚ) (segmentDistance : ℚ) :
    sampleLoop intervalMeters lastPoint currentPoint segmentDistance acc
      = ([], acc) := by
  rw [sampleLoop, dif_pos (Or.inl h)]

/-- For a positive interval, the sampling loop always exits with an
accumulator strictly below the interval. -/
lemma sampleLoop_snd_lt (intervalMeters : ℚ) (hi : 0 < intervalMeters)
    (lastPoint currentPoint : ℚ × ℚ) (segmentDistance acc : ℚ) :
    (sampleLoop intervalMeters lastPoint currentPoint segmentDistance acc).2
      < intervalMeters := by
  induction acc using sampleLoop.induct intervalMeters lastPoint currentPoint
    segmentDistance with
  | case1 acc h =>
    rw [sampleLoop, dif_pos h]
    rcases h with h | h
    · exact h
    · linarith
  | case2 acc h ih =>
    rw [sampleLoop, dif_neg h]
    exact ih

/-- For a positive interval, every accumulator value at the start of a
segment is strictly below the interval, provided the starting accumulator
is. -/
lemma segmentEntryAccs_all_lt {intervalMeters : ℚ}
    (hi : 0 < intervalMeters) :
    ∀ (rest : List (ℚ × ℚ)) (lastPoint : ℚ × ℚ) (acc : ℚ),
      acc < intervalMeters →
      ∀ a ∈ segmentEntryAccs calculateDistance intervalMeters rest lastPoint
        acc, a < intervalMeters := by
  intro rest
  induction rest with
  | nil => intro lastPoint acc hacc a ha; simp [segmentEntryAccs] at ha
  | cons currentPoint rest ih =>
    intro lastPoint acc hacc a ha
    simp only [segmentEntryAccs, List.mem_cons] at ha
    rcases ha with rfl | ha
    · exact hacc
    · exact ih currentPoint _ (sampleLoop_snd_lt intervalMeters hi _ _ _ _)
        a ha

/-- For a nonempty list headed by `a`, `getLast?` returns the `getLastD`
value (the default is irrelevant). -/
lemma getLast?_cons_eq_getLastD (a : α) (t : List α) (d : α) :
    (a :: t).getLast? = some ((a :: t).getLastD d) := by
  induction t generalizing a with
  | nil => rfl
  | cons b t ih =>
    rw [List.getLast?_cons_cons, ih b]
    simp [List.getLastD_cons]

end SamplerLemmas

/-- C9: with a positive sampling interval, the accumulated distance at the
start of every segment of `sampleRoutePoints` is strictly below
`intervalMeters` (the route walk starts at accumulator `0`), and consequently
for a zero-length segment (`segmentDistance = 0`, duplicate consecutive
vertices) the interpolation loop body, which divides by the segment length,
is never executed: the loop returns immediately with no emitted points. -/
theorem sampleRoutePoints_zero_segment_safe
    (calculateDistance : ℚ → ℚ → ℚ → ℚ → ℚ) (intervalMeters : ℚ)
    (hi : 0 < intervalMeters) :
    (∀ (rest : List (ℚ × ℚ)) (firstPoint : ℚ × ℚ),
      ∀ a ∈ segmentEntryAccs calculateDistance intervalMeters rest firstPoint
        0, a < intervalMeters)
    ∧ ∀ (lastPoint currentPoint : ℚ × ℚ) (acc : ℚ), acc < intervalMeters →
        sampleLoop intervalMeters lastPoint currentPoint 0 (acc + 0)
          = ([], acc + 0) := by
  constructor
  · intro rest firstPoint a ha
    exact segmentEntryAccs_all_lt hi rest firstPoint 0 hi a ha
  · intro lastPoint currentPoint acc hacc
    exact sampleLoop_of_lt (by linarith) _ _ _

/-- One executed iteration of the sampling loop, for an accumulator at or
above a positive interval: emit the interpolated point and continue with the
accumulator reduced by the interval. -/
lemma sampleLoop_step {intervalMeters acc : ℚ} (h1 : intervalMeters ≤ acc)
    (h2 : 0 < intervalMeters) (lastPoint currentPoint : ℚ × ℚ)
    (segmentDistance : ℚ) :
    sampleLoop intervalMeters lastPoint currentPoint segmentDistance acc
      = ((lastPoint.1 + (currentPoint.1 - lastPoint.1)
            * ((intervalMeters - (acc - segmentDistance)) / segmentDistance),
          lastPoint.2 + (currentPoint.2 - lastPoint.2)
            * ((intervalMeters - (acc - segmentDistance)) / segmentDistance))
          :: (sampleLoop intervalMeters lastPoint currentPoint segmentDistance
              (acc - intervalMeters)).1,
         (sampleLoop intervalMeters lastPoint currentPoint segmentDistance
            (acc - intervalMeters)).2) := by
  rw [sampleLoop, dif_neg (not_or.mpr ⟨not_lt.mpr h1, not_le.mpr h2⟩)]

/-- C2 (amended): on the route `[(0,0), (0, 0.027)]` with a 1000 m interval,
where the segment length `d = calculateDistance 0 0 0 0.027` lies strictly
between 3000 m and 4000 m (the Haversine length of this segment is
`6371000 * 0.027 * pi / 180`, approximately 3002.26 m, see
`calculateDistanceReal_0027_bounds`), `sampleRoutePoints` returns exactly
FIVE points: the first vertex, interpolated points at 1000 m, 2000 m and
3000 m along the segment, and the final vertex. -/
theorem sampleRoutePoints_0027_five_points
    (calculateDistance : ℚ → ℚ → ℚ → ℚ → ℚ) (d : ℚ)
    (hd : calculateDistance 0 0 0 (27/1000) = d) (h3 : 3000 < d)
    (h4 : d < 4000) :
    sampleRoutePoints calculateDistance [(0, 0), (0, 27/1000)] 1000
      = [(0, 0),
         (0, 27/1000 * (1000/d)),
         (0, 27/1000 * (2000/d)),
         (0, 27/1000 * (3000/d)),
         (0, 27/1000)] := by
  have hd0 : d ≠ 0 := by linarith
  rw [sampleRoutePoints, if_neg (by norm_num)]
  dsimp only
  simp only [sampleSegments, hd]
  rw [sampleLoop_step (by linarith) (by norm_num)]
  rw [sampleLoop_step (by linarith) (by norm_num)]
  rw [sampleLoop_step (by linarith) (by norm_num)]
  rw [sampleLoop_of_lt (by linarith)]
  dsimp only
  rw [if_pos]
  · simp only [List.cons_append, List.nil_append, List.cons.injEq,
      Prod.mk.injEq]
    repeat' apply And.intro
    all_goals try rfl
    all_goals field_simp
    all_goals ring
  · right
    simp only [List.cons_append, List.nil_append, List.getLastD_cons,
      List.getLastD_nil]
    intro heq
    have h2 := congrArg Prod.snd heq
    dsimp at h2
    field_simp at h2
    linarith

/-- C2 counterexample: with the segment length of the Haversine distance
(≈ 3002.26 m > 3000 m), `sampleRoutePoints` on `[(0,0), (0, 0.027)]` at a
1000 m interval returns 5 points, not 4 as claimed. -/
theorem sampleRoutePoints_0027_not_four_points :
    (sampleRoutePoints calculateDistanceC2 [(0, 0), (0, 27/1000)]
        1000).length = 5
    ∧ (sampleRoutePoints calculateDistanceC2 [(0, 0), (0, 27/1000)]
        1000).length ≠ 4 := by
  suffices h : (sampleRoutePoints calculateDistanceC2 [(0, 0), (0, 27/1000)]
      1000).length = 5 by
    exact ⟨h, by omega⟩
  rw [sampleRoutePoints]
  norm_num [sampleSegments, calculateDistanceC2]
  rw [sampleLoop]; norm_num
  rw [sampleLoop]; norm_num
  rw [sampleLoop]; norm_num
  rw [sampleLoop]; norm_num [Prod.ext_iff]

/-- Witness for C2's amended theorem at the concrete rational Haversine
stand-in. -/
theorem sampleRoutePoints_0027_five_points_witness :
    calculateDistanceC2 0 0 0 (27/1000) = 300226/100
    ∧ sampleRoutePoints calculateDistanceC2 [(0, 0), (0, 27/1000)] 1000
      = [(0, 0),
         (0, 27/1000 * (1000/(300226/100))),
         (0, 27/1000 * (2000/(300226/100))),
         (0, 27/1000 * (3000/(300226/100))),
         (0, 27/1000)] :=
  ⟨rfl, sampleRoutePoints_0027_five_points calculateDistanceC2 (300226/100)
    rfl (by norm_num) (by norm_num)⟩

/-- C8: for every route with at least two vertices and every positive
sampling interval, `sampleRoutePoints` returns a non-empty sequence that
starts with the route's first vertex and ends with its last vertex; a route
with fewer than two vertices yields the empty sequence. -/
theorem sampleRoutePoints_endpoints
    (calculateDistance : ℚ → ℚ → ℚ → ℚ → ℚ) (route : List (ℚ × ℚ))
    (intervalMeters : ℚ) (_hi : 0 < intervalMeters) :
    (route.length < 2 → sampleRoutePoints calculateDistance route
        intervalMeters = [])
    ∧ (2 ≤ route.length →
        sampleRoutePoints calculateDistance route intervalMeters ≠ []
        ∧ (sampleRoutePoints calculateDistance route intervalMeters).head?
          = route.head?
        ∧ (sampleRoutePoints calculateDistance route intervalMeters).getLast?
          = route.getLast?) := by
  constructor
  · intro h
    unfold sampleRoutePoints
    rw [if_pos h]
  · intro h
    have hlt : ¬ route.length < 2 := by omega
    obtain ⟨firstPoint, rest, rfl⟩ : ∃ a t, route = a :: t := by
      cases route with
      | nil => simp at h
      | cons a t => exact ⟨a, t, rfl⟩
    rw [sampleRoutePoints, if_neg hlt]
    dsimp only
    set sampled := (firstPoint.1, firstPoint.2) ::
      sampleSegments calculateDistance intervalMeters rest firstPoint 0
      with hsampled
    set lastCoord := (firstPoint :: rest).getLastD (0, 0) with hlastCoord
    have hroute_last : (firstPoint :: rest).getLast? = some lastCoord :=
      getLast?_cons_eq_getLastD _ _ _
    by_cases hcond : sampled = [] ∨ sampled.getLastD (0, 0) ≠ lastCoord
    · rw [if_pos hcond]
      refine ⟨by simp, ?_, ?_⟩
      · rw [hsampled]
        simp
      · rw [List.getLast?_concat, hroute_last]
    · rw [if_neg hcond]
      push_neg at hcond
      obtain ⟨hne, heq⟩ := hcond
      refine ⟨hne, ?_, ?_⟩
      · rw [hsampled]
        simp
      · rw [hroute_last, ← heq, hsampled]
        exact getLast?_cons_eq_getLastD _ _ _

/-- C1 (amended): for a query point with exactly two stations in range, one at
distance 1000 m with value 20 and one at distance 3000 m with value 80,
`calculateEstimatedAQI` with default options (power 2) returns an estimate of
exactly 26 — the inverse-distance-squared weighted mean
`(20/1000^2 + 80/3000^2) / (1/1000^2 + 1/3000^2) = 260/10 = 26`, not 28.9. -/
theorem estimatedAQI_two_stations_1000_3000
    (calculateDistance : ℚ → ℚ → ℚ → ℚ → ℚ)
    (targetLat targetLon la1 lo1 la2 lo2 : ℚ)
    (h1 : calculateDistance targetLat targetLon la1 lo1 = 1000)
    (h2 : calculateDistance targetLat targetLon la2 lo2 = 3000) :
    (calculateEstimatedAQI calculateDistance targetLat targetLon
        [⟨0, "A", some [la1, lo1], some 20⟩,
         ⟨1, "B", some [la2, lo2], some 80⟩] {}).estimatedAQI = some 26 := by
  have hsurv : survivingStations calculateDistance targetLat targetLon 50000
      [⟨0, "A", some [la1, lo1], some 20⟩, ⟨1, "B", some [la2, lo2], some 80⟩]
      = [⟨⟨0, "A", some [la1, lo1], some 20⟩, 1000⟩,
         ⟨⟨1, "B", some [la2, lo2], some 80⟩, 3000⟩] := by
    simp only [survivingStations, List.map_cons, List.map_nil, annotateStation,
      List.getD_cons_zero, List.getD_cons_succ]
    norm_num [h1, h2, List.reduceOption, List.filterMap_cons]
  have hnear : findNearestStations calculateDistance
      [⟨0, "A", some [la1, lo1], some 20⟩, ⟨1, "B", some [la2, lo2], some 80⟩]
      targetLat targetLon 3 50000
      = [⟨⟨0, "A", some [la1, lo1], some 20⟩, 1000⟩,
         ⟨⟨1, "B", some [la2, lo2], some 80⟩, 3000⟩] := by
    rw [findNearestStations, if_neg (by norm_num), hsurv,
      List.mergeSort_of_sorted (by norm_num [stationDistLe])]
    rfl
  rw [calculateEstimatedAQI]
  dsimp only
  rw [hnear]
  norm_num [idwSums]

/-- C1 counterexample: at the claimed configuration (two stations at 1000 m
and 3000 m with values 20 and 80, default options) the returned estimate is
exactly 26, not approximately 28.9. -/
theorem estimatedAQI_two_stations_not_28_9 :
    (calculateEstimatedAQI calculateDistanceC1 0 0
        [⟨0, "A", some [1, 1], some 20⟩,
         ⟨1, "B", some [3, 3], some 80⟩] {}).estimatedAQI = some 26
    ∧ (calculateEstimatedAQI calculateDistanceC1 0 0
        [⟨0, "A", some [1, 1], some 20⟩,
         ⟨1, "B", some [3, 3], some 80⟩] {}).estimatedAQI ≠ some (289/10) := by
  have hsurv : survivingStations calculateDistanceC1 0 0 50000
      [⟨0, "A", some [1, 1], some 20⟩, ⟨1, "B", some [3, 3], some 80⟩]
      = [⟨⟨0, "A", some [1, 1], some 20⟩, 1000⟩,
         ⟨⟨1, "B", some [3, 3], some 80⟩, 3000⟩] := by
    simp only [survivingStations, List.map_cons, List.map_nil, annotateStation,
      List.getD_cons_zero, List.getD_cons_succ]
    norm_num [calculateDistanceC1, List.reduceOption, List.filterMap_cons]
  have hnear : findNearestStations calculateDistanceC1
      [⟨0, "A", some [1, 1], some 20⟩, ⟨1, "B", some [3, 3], some 80⟩]
      0 0 3 50000
      = [⟨⟨0, "A", some [1, 1], some 20⟩, 1000⟩,
         ⟨⟨1, "B", some [3, 3], some 80⟩, 3000⟩] := by
    rw [findNearestStations, if_neg (by norm_num), hsurv,
      List.mergeSort_of_sorted (by norm_num [stationDistLe])]
    rfl
  have hval : (calculateEstimatedAQI calculateDistanceC1 0 0
      [⟨0, "A", some [1, 1], some 20⟩,
       ⟨1, "B", some [3, 3], some 80⟩] {}).estimatedAQI = some 26 := by
    rw [calculateEstimatedAQI]
    dsimp only
    rw [hnear]
    norm_num [idwSums]
  refine ⟨hval, ?_⟩
  rw [hval]
  intro hcontr
  have : (26 : ℚ) = 289/10 := by exact_mod_cast Option.some.inj hcontr
  norm_num at this

/-- Witness for C1's amended theorem at the concrete distance function. -/
theorem estimatedAQI_two_stations_1000_3000_witness :
    calculateDistanceC1 0 0 1 1 = 1000
    ∧ calculateDistanceC1 0 0 3 3 = 3000
    ∧ (calculateEstimatedAQI calculateDistanceC1 0 0
        [⟨0, "A", some [1, 1], some 20⟩,
         ⟨1, "B", some [3, 3], some 80⟩] {}).estimatedAQI = some 26 :=
  ⟨by norm_num [calculateDistanceC1], by norm_num [calculateDistanceC1],
    estimatedAQI_two_stations_1000_3000 calculateDistanceC1 0 0 1 1 3 3
      (by norm_num [calculateDistanceC1]) (by norm_num [calculateDistanceC1])⟩

/-- C3 (amended): when no sampled point has a valid estimate,
`calculateRouteAverageAQI` returns absent `averageAQI`/`minAQI`/`maxAQI`,
zero `validPoints`, the descriptive message
`No valid AQI estimates found for route` — and NO `coverage` field at all
(in JavaScript the zero-valid branch's object literal omits `coverage`, so
reading it yields `undefined`, not `0`). -/
theorem routeAverage_zero_valid
    (calculateDistance : ℚ → ℚ → ℚ → ℚ → ℚ) (points : List (ℚ × ℚ))
    (stations : List Station) (options : EstimationOptions)
    (h : ((calculateEstimatedAQIForRoute calculateDistance points stations
        options).map (fun r => r.estimatedAQI)).reduceOption = []) :
    calculateRouteAverageAQI calculateDistance points stations options
      = { averageAQI := none
          minAQI := none
          maxAQI := none
          validPoints := 0
          totalPoints := points.length
          coverage := none
          error := some "No valid AQI estimates found for route" } := by
  rw [calculateRouteAverageAQI]
  dsimp only
  rw [h]

/-- C3 counterexample: for the route `[(0,0)]` with no stations, no point has
a valid estimate; the aggregate carries absent statistics and a message, but
its `coverage` field is absent (`none`), not equal to `0`. -/
theorem routeAverage_zero_valid_coverage_absent :
    (calculateRouteAverageAQI calculateDistanceZero [(0, 0)] [] {}).averageAQI
      = none
    ∧ (calculateRouteAverageAQI calculateDistanceZero [(0, 0)] [] {}).minAQI
      = none
    ∧ (calculateRouteAverageAQI calculateDistanceZero [(0, 0)] [] {}).maxAQI
      = none
    ∧ (calculateRouteAverageAQI calculateDistanceZero [(0, 0)] [] {}).error
      = some "No valid AQI estimates found for route"
    ∧ (calculateRouteAverageAQI calculateDistanceZero [(0, 0)] [] {}).coverage
      ≠ some 0
    ∧ (calculateRouteAverageAQI calculateDistanceZero [(0, 0)] [] {}).coverage
      = none := by
  have h : calculateRouteAverageAQI calculateDistanceZero [(0, 0)] [] {}
      = { averageAQI := none
          minAQI := none
          maxAQI := none
          validPoints := 0
          totalPoints := 1
          coverage := none
          error := some "No valid AQI estimates found for route" } := by
    norm_num [calculateRouteAverageAQI, calculateEstimatedAQIForRoute,
      calculateEstimatedAQI, findNearestStations, List.mapIdx_cons,
      List.mapIdx_nil, List.reduceOption, List.filterMap_cons]
  rw [h]
  refine ⟨rfl, rfl, rfl, rfl, by simp, rfl⟩

/-- Witness for C3's amended theorem at a concrete input with zero valid
estimates. -/
theorem routeAverage_zero_valid_witness :
    ((calculateEstimatedAQIForRoute calculateDistanceZero [(0, 0)] []
        {}).map (fun r => r.estimatedAQI)).reduceOption = []
    ∧ calculateRouteAverageAQI calculateDistanceZero [(0, 0)] [] {}
      = { averageAQI := none
          minAQI := none
          maxAQI := none
          validPoints := 0
          totalPoints := 1
          coverage := none
          error := some "No valid AQI estimates found for route" } := by
  have h : ((calculateEstimatedAQIForRoute calculateDistanceZero [(0, 0)] []
      {}).map (fun r => r.estimatedAQI)).reduceOption = [] := by
    norm_num [calculateEstimatedAQIForRoute, calculateEstimatedAQI,
      findNearestStations, List.mapIdx_cons, List.mapIdx_nil,
      List.reduceOption, List.filterMap_cons]
  exact ⟨h, routeAverage_zero_valid calculateDistanceZero [(0, 0)] [] {} h⟩

/-- Witness for C4's amended theorem at a concrete input (one station at
distance 0, default options): the hypotheses hold, the JavaScript-semantics
confidence is the finite model value, and it lies in `[0, 100]`. -/
theorem calculateEstimatedAQI_confidence_range_witness :
    1 ≤ ({} : EstimationOptions).minStations
    ∧ ({} : EstimationOptions).maxDistance ≠ 0
    ∧ calculateEstimatedAQIConfidenceJS calculateDistanceZero 0 0
        [⟨0, "A", some [1, 1], some 50⟩] {}
      = JSNum.num (calculateEstimatedAQI calculateDistanceZero 0 0
          [⟨0, "A", some [1, 1], some 50⟩] {}).confidence
    ∧ 0 ≤ (calculateEstimatedAQI calculateDistanceZero 0 0
        [⟨0, "A", some [1, 1], some 50⟩] {}).confidence
    ∧ (calculateEstimatedAQI calculateDistanceZero 0 0
        [⟨0, "A", some [1, 1], some 50⟩] {}).confidence ≤ 100 :=
  ⟨by norm_num, by norm_num,
    (calculateEstimatedAQI_confidence_range calculateDistanceZero
      (fun _ _ _ _ => le_refl 0) 0 0 [⟨0, "A", some [1, 1], some 50⟩] {}
      (by norm_num) (by norm_num)).1,
    (calculateEstimatedAQI_confidence_range calculateDistanceZero
      (fun _ _ _ _ => le_refl 0) 0 0 [⟨0, "A", some [1, 1], some 50⟩] {}
      (by norm_num) (by norm_num)).2.1,
    (calculateEstimatedAQI_confidence_range calculateDistanceZero
      (fun _ _ _ _ => le_refl 0) 0 0 [⟨0, "A", some [1, 1], some 50⟩] {}
      (by norm_num) (by norm_num)).2.2⟩

/-- Witness for C5 at a concrete input: the returned record for the one
well-formed station has a two-element coordinate pair and a numeric value. -/
theorem findNearestStations_drops_malformed_witness :
    (⟨⟨0, "A", some [1, 1], some 50⟩, 0⟩ : StationWithDistance)
      ∈ findNearestStations calculateDistanceZero
        [⟨0, "A", some [1, 1], some 50⟩] 0 0 3 50000
    ∧ ((∃ c, (⟨⟨0, "A", some [1, 1], some 50⟩, 0⟩
          : StationWithDistance).coordinates = some c ∧ c.length = 2)
        ∧ (⟨⟨0, "A", some [1, 1], some 50⟩, 0⟩
          : StationWithDistance).value.isSome) := by
  have hnear : findNearestStations calculateDistanceZero
      [⟨0, "A", some [1, 1], some 50⟩] 0 0 3 50000
      = [⟨⟨0, "A", some [1, 1], some 50⟩, 0⟩] := by
    norm_num [findNearestStations, survivingStations, annotateStation,
      calculateDistanceZero, List.reduceOption, List.filterMap_cons]
  have hmem : (⟨⟨0, "A", some [1, 1], some 50⟩, 0⟩ : StationWithDistance)
      ∈ findNearestStations calculateDistanceZero
        [⟨0, "A", some [1, 1], some 50⟩] 0 0 3 50000 := by
    rw [hnear]
    exact List.mem_singleton.mpr rfl
  exact ⟨hmem, (findNearestStations_drops_malformed calculateDistanceZero
    [⟨0, "A", some [1, 1], some 50⟩] 0 0 3 50000).1 _ hmem⟩

/-- Witness for C6 at a concrete input: length bound, sortedness and the
stability sublist at distance 0. -/
theorem findNearestStations_sorted_bounded_witness :
    (findNearestStations calculateDistanceZero
        [⟨0, "A", some [1, 1], some 50⟩] 0 0 3 50000).length ≤ 3
    ∧ (findNearestStations calculateDistanceZero
        [⟨0, "A", some [1, 1], some 50⟩] 0 0 3 50000).Pairwise
        (fun a b => a.distance ≤ b.distance)
    ∧ List.Sublist
        ((findNearestStations calculateDistanceZero
          [⟨0, "A", some [1, 1], some 50⟩] 0 0 3 50000).filter
          (fun s => s.distance = 0))
        ((survivingStations calculateDistanceZero 0 0 50000
          [⟨0, "A", some [1, 1], some 50⟩]).filter
          (fun s => s.distance = 0)) :=
  ⟨(findNearestStations_sorted_bounded calculateDistanceZero
      [⟨0, "A", some [1, 1], some 50⟩] 0 0 3 50000).1,
   (findNearestStations_sorted_bounded calculateDistanceZero
      [⟨0, "A", some [1, 1], some 50⟩] 0 0 3 50000).2.2.1,
   (findNearestStations_sorted_bounded calculateDistanceZero
      [⟨0, "A", some [1, 1], some 50⟩] 0 0 3 50000).2.2.2 0⟩

/-- Witness for C7 at a concrete input (no stations, `minStations = 1`). -/
theorem calculateEstimatedAQI_insufficient_witness :
    (findNearestStations calculateDistanceZero [] 0 0 3 50000).length < 1
    ∧ (calculateEstimatedAQI calculateDistanceZero 0 0 [] {}).estimatedAQI
      = none
    ∧ (calculateEstimatedAQI calculateDistanceZero 0 0 [] {}).confidence = 0
    ∧ (calculateEstimatedAQI calculateDistanceZero 0 0 [] {}).error
      = some "Insufficient stations found. Required: 1, Found: 0" := by
  have hlen : (findNearestStations calculateDistanceZero [] 0 0 3
      50000).length < 1 := by
    norm_num [findNearestStations]
  have h := calculateEstimatedAQI_insufficient calculateDistanceZero 0 0 []
    {} hlen
  refine ⟨hlen, h.1, h.2.1, ?_⟩
  rw [h.2.2]
  norm_num [findNearestStations]
  rfl

/-- Witness for C8 at a concrete two-vertex route. -/
theorem sampleRoutePoints_endpoints_witness :
    (0 : ℚ) < 1000
    ∧ sampleRoutePoints calculateDistanceZero [(0, 0), (0, 1)] 1000 ≠ []
    ∧ (sampleRoutePoints calculateDistanceZero [(0, 0), (0, 1)] 1000).head?
      = some (0, 0)
    ∧ (sampleRoutePoints calculateDistanceZero [(0, 0), (0, 1)] 1000).getLast?
      = some (0, 1) := by
  have h := (sampleRoutePoints_endpoints calculateDistanceZero
    [(0, 0), (0, 1)] 1000 (by norm_num)).2 (by norm_num)
  exact ⟨by norm_num, h.1, by rw [h.2.1]; rfl, by rw [h.2.2]; rfl⟩

/-- Witness for C9 at a concrete segment list and accumulator. -/
theorem sampleRoutePoints_zero_segment_safe_witness :
    (0 : ℚ) < 1000
    ∧ (0 : ℚ) ∈ segmentEntryAccs calculateDistanceZero 1000 [(0, 1)] (0, 0) 0
    ∧ (0 : ℚ) < 1000
    ∧ sampleLoop 1000 (0, 0) (0, 1) 0 (0 + 0) = ([], 0 + 0) := by
  have hthm := sampleRoutePoints_zero_segment_safe calculateDistanceZero 1000
    (by norm_num)
  have hmem : (0 : ℚ) ∈ segmentEntryAccs calculateDistanceZero 1000 [(0, 1)]
      (0, 0) 0 := by
    simp [segmentEntryAccs]
  exact ⟨by norm_num, hmem, hthm.1 [(0, 1)] (0, 0) 0 hmem,
    hthm.2 (0, 0) (0, 1) 0 (by norm_num)⟩

/-- Witness for C10 at a concrete input (one station in range,
`minStations = 1`): the weight sum is positive and the estimate is present. -/
theorem estimatedAQI_none_iff_insufficient_witness :
    1 ≤ ({} : EstimationOptions).minStations
    ∧ 0 < (idwSums ({} : EstimationOptions).power
        (findNearestStations calculateDistanceZero
          [⟨0, "A", some [1, 1], some 50⟩] 0 0
          ({} : EstimationOptions).maxStations
          ({} : EstimationOptions).maxDistance)).2
    ∧ ((calculateEstimatedAQI calculateDistanceZero 0 0
          [⟨0, "A", some [1, 1], some 50⟩] {}).estimatedAQI = none
        ↔ (findNearestStations calculateDistanceZero
            [⟨0, "A", some [1, 1], some 50⟩] 0 0
            ({} : EstimationOptions).maxStations
            ({} : EstimationOptions).maxDistance).length
          < ({} : EstimationOptions).minStations) := by
  have hthm := estimatedAQI_none_iff_insufficient calculateDistanceZero 0 0
    [⟨0, "A", some [1, 1], some 50⟩] {} (by norm_num)
  have hlen : (findNearestStations calculateDistanceZero
      [⟨0, "A", some [1, 1], some 50⟩] 0 0 3 50000).length = 1 := by
    norm_num [findNearestStations, survivingStations, annotateStation,
      calculateDistanceZero, List.reduceOption, List.filterMap_cons]
  refine ⟨by norm_num, hthm.1 ?_, hthm.2⟩
  intro hcontr
  have hcontr2 : (findNearestStations calculateDistanceZero
      [⟨0, "A", some [1, 1], some 50⟩] 0 0 3 50000).length < 1 := hcontr
  rw [hlen] at hcontr2
  omega

/-- The Haversine distance of the source is non-negative: `atan2` is applied
to a non-negative second coordinate, so the angle lies in `[0, pi]`.  This is
the fact assumed (as `hdist`) by the confidence-range theorem. -/
theorem calculateDistanceReal_nonneg (lat1 lon1 lat2 lon2 : ℝ) :
    0 ≤ calculateDistanceReal lat1 lon1 lat2 lon2 := by
  unfold calculateDistanceReal atan2
  dsimp only
  have harg : ∀ a : ℝ, 0 ≤ Complex.arg ⟨Real.sqrt (1 - a), Real.sqrt a⟩ :=
    fun a => Complex.arg_nonneg_iff.mpr (Real.sqrt_nonneg a)
  exact mul_nonneg (by norm_num) (mul_nonneg (by norm_num) (harg _))

/-- The exact Haversine length of the segment `(0,0) – (0, 0.027)` is
`6371000 * 2 * (27 * pi / 360000) = 19113 * pi / 20 ≈ 3002.26` meters: it
lies strictly between 3002 and 3003, in particular strictly between the 3000
and 4000 assumed by the five-point sampling theorem. -/
theorem calculateDistanceReal_0027_bounds :
    3002 < calculateDistanceReal 0 0 0 (27/1000)
    ∧ calculateDistanceReal 0 0 0 (27/1000) < 3003 := by
  have hpil := Real.pi_gt_d4
  have hpiu := Real.pi_lt_d4
  have hpipos : (0:ℝ) < Real.pi := by norm_num at hpil ⊢; linarith
  unfold calculateDistanceReal atan2
  dsimp only
  have h00 : toRadians (0 - 0) = 0 := by unfold toRadians; ring
  have h0 : toRadians 0 = 0 := by unfold toRadians; ring
  rw [h00, h0]
  norm_num [Real.sin_zero, Real.cos_zero]
  set y := toRadians (27 / 1000) / 2 with hy
  have hyval : y = 27 * Real.pi / 360000 := by rw [hy]; unfold toRadians; ring
  have hy0 : 0 ≤ y := by rw [hyval]; positivity
  have hyhalf : y ≤ Real.pi / 2 := by rw [hyval]; nlinarith
  have hypi : y ≤ Real.pi := by linarith
  have hsin0 : 0 ≤ Real.sin y := Real.sin_nonneg_of_nonneg_of_le_pi hy0 hypi
  have hcos0 : 0 ≤ Real.cos y :=
    Real.cos_nonneg_of_mem_Icc ⟨by linarith, hyhalf⟩
  have hs : Real.sqrt (Real.sin y * Real.sin y) = Real.sin y :=
    Real.sqrt_mul_self hsin0
  have hc1 : (1:ℝ) - Real.sin y * Real.sin y = Real.cos y * Real.cos y := by
    have h := Real.sin_sq_add_cos_sq y
    rw [pow_two, pow_two] at h
    linarith
  have hc : Real.sqrt (Real.cos y * Real.cos y) = Real.cos y :=
    Real.sqrt_mul_self hcos0
  rw [hs, hc1, hc]
  have harg : Complex.arg ⟨Real.cos y, Real.sin y⟩ = y := by
    rw [Complex.mk_eq_add_mul_I, Complex.ofReal_cos, Complex.ofReal_sin]
    exact Complex.arg_cos_add_sin_mul_I ⟨by linarith, hypi⟩
  rw [harg, hyval]
  norm_num at hpil hpiu
  constructor <;> nlinarith
